import Mathlib

/-!
Verification of the dispatch-core interfaces (httpcore/interfaces.py).

The module under verification defines the base Dispatcher class (with a
concrete request pipeline and scoped-resource protocol), the stream
reader/writer base interfaces, the pool-semaphore base interface, and the
Protocol enumeration. The embedding below models each Python method as a
Lean function; methods that run effects (calls to overridable methods)
return an event trace together with their result; a raised exception is
an Except.error value. Async methods and plain methods are additionally
classified by explicit tables translated from the async/def keywords of
the source. The concurrency gate of the design document has no concrete
body in the module (BasePoolSemaphore only stubs the interface); a state
machine for it is modelled from the design text and marked as such.
-/

/-- TimeoutConfig is an external collaborator value object; its contents
are irrelevant here, so it is kept abstract as a tagged value. -/
structure TimeoutConfig where
  id : Nat
deriving DecidableEq

/-- SSLConfig is an external collaborator value object; kept abstract. -/
structure SSLConfig where
  id : Nat
deriving DecidableEq

/-- OptionalTimeout := typing.Optional of TimeoutConfig, from the source. -/
abbrev OptionalTimeout := Option TimeoutConfig

/-- The ssl argument of the source defaults to None, so it is optional. -/
abbrev OptionalSSL := Option SSLConfig

/-- A byte string, modelled as a list of byte values. -/
abbrev Bytes := List Nat

/-- Query parameters as passed to the Request constructor; None when the
caller gave none. -/
abbrev QueryParamTypes := Option (List (String × String))

/-- Headers as passed to the Request constructor; None when absent. -/
abbrev HeaderTypes := Option (List (String × String))

/-- The Request value object of the external model, holding exactly the
fields the dispatcher passes to its constructor. -/
structure Request where
  method : String
  url : String
  data : Bytes
  query_params : QueryParamTypes
  headers : HeaderTypes
deriving DecidableEq

/-- The Response value object of the external model; kept abstract. -/
structure Response where
  status_code : Nat
deriving DecidableEq

/-- Exceptions: NotImplementedError as raised by the stub bodies, and an
indexed family of arbitrary other exceptions. -/
inductive Err where
  | NotImplementedError : Err
  | exc : Nat → Err
deriving DecidableEq

/-- Observable events of a dispatcher run: constructing a Request from
the given inputs, invoking the prepare hook on a Request, and effects of
implementation-specific overridden methods (an indexed family, so that an
arbitrary subclass body can be represented). -/
inductive Event where
  | buildRequest : String → String → Bytes → QueryParamTypes → HeaderTypes → Event
  | prepare : Request → Event
  | eff : Nat → Event
deriving DecidableEq

/-- The Dispatcher base class. The overridable methods send and close are
fields: a value of this structure is one concrete dispatcher, each field
giving the behaviour of that method as an event trace paired with a
result. The concrete base-class methods (request, prepare_request, the
scoped-resource protocol) are defined below over these fields, following
the source. -/
structure Dispatcher where
  send : Request → Bool → OptionalSSL → OptionalTimeout → List Event × Except Err Response
  close : List Event × Except Err Unit

/-- The base class itself: its send body raises NotImplementedError and
its close body is pass (no effects, succeeds). -/
def baseDispatcher : Dispatcher :=
  { send := fun _ _ _ _ => ([], Except.error Err.NotImplementedError),
    close := ([], Except.ok ()) }

/-- Dispatcher.prepare_request from the source: its whole body is the
call request.prepare() on the given request. The prepare hook of the
external request model is the parameter prepareHook; the event records
the request it was invoked on, the result is the prepared request. -/
def Dispatcher.prepare_request (prepareHook : Request → Request) (r : Request) :
    List Event × Request :=
  ([Event.prepare r], prepareHook r)

/-- Dispatcher.request from the source: construct a Request from method,
url, data, query_params and headers; call prepare_request on it; await
send with the prepared request and the given stream, ssl and timeout;
return the response send returned. -/
def Dispatcher.request (d : Dispatcher) (prepareHook : Request → Request)
    (method : String) (url : String) (data : Bytes)
    (query_params : QueryParamTypes) (headers : HeaderTypes)
    (stream : Bool) (ssl : OptionalSSL) (timeout : OptionalTimeout) :
    List Event × Except Err Response :=
  let r := Request.mk method url data query_params headers
  let p := Dispatcher.prepare_request prepareHook r
  let s := d.send p.2 stream ssl timeout
  (Event.buildRequest method url data query_params headers :: p.1 ++ s.1, s.2)

/-- Dispatcher.request with every optional argument omitted, i.e. at the
defaults of the source signature: data = b"", query_params = None,
headers = None, stream = False, ssl = None, timeout = None. -/
def Dispatcher.requestDefaults (d : Dispatcher) (prepareHook : Request → Request)
    (method : String) (url : String) : List Event × Except Err Response :=
  Dispatcher.request d prepareHook method url [] none none false none none

/-- Dispatcher aenter from the source: returns self, with no effects. -/
def Dispatcher.aenter (d : Dispatcher) : List Event × Dispatcher :=
  ([], d)

/-- Dispatcher aexit from the source: awaits self.close() and returns
None. The exception information received is never inspected. The return
value None is modelled by its Python truthiness, the boolean false; if
close itself raised, that exception propagates out of aexit. -/
def Dispatcher.aexit (d : Dispatcher) (excInfo : Option Err) :
    List Event × Except Err Bool :=
  let c := d.close
  (c.1,
    match c.2 with
    | Except.ok _ => Except.ok false
    | Except.error e => Except.error e)

/-- The exception information a with-statement passes to aexit, computed
from the outcome of the body: None on normal exit, the raised exception
on exceptional exit. -/
def excOf : Except Err Unit → Option Err
  | Except.ok _ => none
  | Except.error e => some e

/-- Semantics of using a dispatcher as a scoped resource (async with):
enter, run the body on the entered value, then call aexit with the
exception information of the body outcome. An exception raised by aexit
replaces the outcome; a truthy aexit return suppresses a body exception;
a falsy return lets the body outcome stand. -/
def runScoped (d : Dispatcher) (body : Dispatcher → List Event × Except Err Unit) :
    List Event × Except Err Unit :=
  let en := Dispatcher.aenter d
  let b := body en.2
  let ex := Dispatcher.aexit en.2 (excOf b.2)
  (en.1 ++ b.1 ++ ex.1,
    match ex.2 with
    | Except.error e => Except.error e
    | Except.ok true => Except.ok ()
    | Except.ok false => b.2)

/-- BaseReader.read from the source: the stub raises NotImplementedError
for every input. -/
def BaseReader.read (n : Nat) (timeout : OptionalTimeout) : Except Err Bytes :=
  Except.error Err.NotImplementedError

/-- BaseWriter.write_no_block from the source: declared with return
annotation None (so it yields no value on success) and a stub body that
raises NotImplementedError. -/
def BaseWriter.write_no_block (data : Bytes) : Except Err Unit :=
  Except.error Err.NotImplementedError

/-- BaseWriter.write from the source: stub raises NotImplementedError. -/
def BaseWriter.write (data : Bytes) (timeout : OptionalTimeout) : Except Err Unit :=
  Except.error Err.NotImplementedError

/-- BaseWriter.close from the source: stub raises NotImplementedError. -/
def BaseWriter.close : Except Err Unit :=
  Except.error Err.NotImplementedError

/-- BasePoolSemaphore.acquire from the source: stub raises
NotImplementedError. -/
def BasePoolSemaphore.acquire : Except Err Unit :=
  Except.error Err.NotImplementedError

/-- BasePoolSemaphore.release from the source: stub raises
NotImplementedError. -/
def BasePoolSemaphore.release : Except Err Unit :=
  Except.error Err.NotImplementedError

/-- The two methods of the pool-semaphore interface. -/
inductive GateMethod where
  | acquire
  | release
deriving DecidableEq

/-- Which BasePoolSemaphore methods the source declares with async def
(true) and which with plain def (false): acquire is async, release is a
plain synchronous method. -/
def BasePoolSemaphore.isAsync : GateMethod → Bool
  | GateMethod.acquire => true
  | GateMethod.release => false

/-- The three methods of the stream-writer interface. -/
inductive WriterMethod where
  | write_no_block
  | write
  | close
deriving DecidableEq

/-- Which BaseWriter methods the source declares with async def (true)
and which with plain def (false): write and close are async, while
write_no_block is a plain synchronous method. -/
def BaseWriter.isAsync : WriterMethod → Bool
  | WriterMethod.write_no_block => false
  | WriterMethod.write => true
  | WriterMethod.close => true

/-- Protocol from the source: a string-valued enumeration with exactly
the members HTTP_11 and HTTP_2. -/
inductive Protocol where
  | HTTP_11
  | HTTP_2
deriving DecidableEq

/-- The string tag of each Protocol member, from the source. -/
def Protocol.value : Protocol → String
  | Protocol.HTTP_11 => "HTTP/1.1"
  | Protocol.HTTP_2 => "HTTP/2"

/-- Modelled from the spec: the concurrency gate (pool semaphore) of the
design document, a counting permit gate of capacity N; the concrete
semaphore body is absent from the module (BasePoolSemaphore only stubs
the interface). The state holds the configured capacity and the number
of outstanding tickets. -/
structure Gate where
  capacity : Nat
  outstanding : Nat
deriving DecidableEq

/-- Modelled from the spec: Gate.acquire grants a ticket, incrementing
the outstanding count and returning true, exactly when a permit is free;
when the permits are exhausted the caller suspends and no ticket is
issued, returned as false with the state unchanged. -/
def Gate.acquireStep (g : Gate) : Gate × Bool :=
  if g.outstanding < g.capacity then
    (Gate.mk g.capacity (g.outstanding + 1), true)
  else
    (g, false)

/-- Modelled from the spec: Gate.release returns one ticket; it never
suspends and is total, defined on every state, including a state where
the acquiring operation failed partway and holds no ticket. -/
def Gate.releaseStep (g : Gate) : Gate :=
  Gate.mk g.capacity (g.outstanding - 1)

/-- Run a sequence of acquire and release operations against a gate. -/
def Gate.run (g : Gate) : List GateMethod → Gate
  | [] => g
  | op :: ops =>
    match op with
    | GateMethod.acquire => Gate.run (Gate.acquireStep g).1 ops
    | GateMethod.release => Gate.run (Gate.releaseStep g) ops

/-- Running operations never changes the configured capacity. -/
lemma Gate.run_capacity (ops : List GateMethod) : ∀ g : Gate,
    (Gate.run g ops).capacity = g.capacity := by
  induction ops with
  | nil => intro g; rfl
  | cons op ops ih =>
    intro g
    cases op with
    | acquire =>
      show (Gate.run (Gate.acquireStep g).1 ops).capacity = g.capacity
      rw [ih]
      unfold Gate.acquireStep
      by_cases h : g.outstanding < g.capacity
      · simp [h]
      · simp [h]
    | release =>
      show (Gate.run (Gate.releaseStep g) ops).capacity = g.capacity
      rw [ih]
      rfl

/-- The invariant of the gate: if outstanding tickets are within the
capacity, they stay within it under any sequence of operations. -/
lemma Gate.run_outstanding_le (ops : List GateMethod) : ∀ g : Gate,
    g.outstanding ≤ g.capacity →
    (Gate.run g ops).outstanding ≤ (Gate.run g ops).capacity := by
  induction ops with
  | nil => intro g h; exact h
  | cons op ops ih =>
    intro g h
    cases op with
    | acquire =>
      show (Gate.run (Gate.acquireStep g).1 ops).outstanding ≤
        (Gate.run (Gate.acquireStep g).1 ops).capacity
      apply ih
      unfold Gate.acquireStep
      by_cases hlt : g.outstanding < g.capacity
      · simp [hlt]
        exact hlt
      · simp [hlt]
        exact h
    | release =>
      show (Gate.run (Gate.releaseStep g) ops).outstanding ≤
        (Gate.run (Gate.releaseStep g) ops).capacity
      apply ih
      exact le_trans (Nat.sub_le g.outstanding 1) h

/-- C1: Dispatcher.request first constructs a Request from method, url,
data, query_params and headers, then calls prepare_request on that
Request, then calls send with that same prepared Request and the given
stream, ssl and timeout arguments, and returns exactly the Response that
send returns: the run is precisely the build event, then the prepare
event on the constructed Request, then the effects of send, with the
result of send as the result, and nothing else. -/
theorem C1_request_pipeline (d : Dispatcher) (prepareHook : Request → Request)
    (method : String) (url : String) (data : Bytes)
    (query_params : QueryParamTypes) (headers : HeaderTypes)
    (stream : Bool) (ssl : OptionalSSL) (timeout : OptionalTimeout) :
    Dispatcher.request d prepareHook method url data query_params headers
        stream ssl timeout =
      (Event.buildRequest method url data query_params headers ::
        Event.prepare (Request.mk method url data query_params headers) ::
        (d.send (prepareHook (Request.mk method url data query_params headers))
          stream ssl timeout).1,
       (d.send (prepareHook (Request.mk method url data query_params headers))
          stream ssl timeout).2) := rfl

/-- C2: entering the scope returns the dispatcher itself with no
effects; leaving the scope calls close on every exit path: the effects
of aexit are exactly the effects of close whatever exception information
is passed, and any scoped run ends with the effects of close whether the
body returned normally or raised. -/
theorem C2_scoped_resource (d : Dispatcher) (excInfo : Option Err)
    (body : Dispatcher → List Event × Except Err Unit) :
    Dispatcher.aenter d = ([], d) ∧
    (Dispatcher.aexit d excInfo).1 = d.close.1 ∧
    (runScoped d body).1 = (body d).1 ++ d.close.1 :=
  ⟨rfl, rfl, rfl⟩

/-- C3: for every capacity N and every sequence of acquire and release
operations started on a fresh gate, the number of outstanding tickets
(incremented only by a successful acquire, decremented by release) never
exceeds N. -/
theorem C3_gate_capacity_invariant (N : Nat) (ops : List GateMethod) :
    (Gate.run (Gate.mk N 0) ops).outstanding ≤ N := by
  have h := Gate.run_outstanding_le ops (Gate.mk N 0) (Nat.zero_le N)
  rwa [Gate.run_capacity ops (Gate.mk N 0)] at h

/-- C4 counterexample: at the concrete data argument [104, 105] the base
write_no_block raises NotImplementedError: it performs no write and
returns no count of bytes written; indeed its source return annotation
is None, so no conforming implementation returns a byte count. -/
theorem C4_counterexample :
    BaseWriter.write_no_block [104, 105] = Except.error Err.NotImplementedError := rfl

/-- C4 amended: write_no_block is declared without async, so it does not
suspend the caller, and its declared return type is None, so it returns
no value (in particular no byte count); the base interface raises
NotImplementedError for every data argument instead of writing. -/
theorem C4_write_no_block_sync_none (data : Bytes) :
    BaseWriter.isAsync WriterMethod.write_no_block = false ∧
    BaseWriter.write_no_block data = Except.error Err.NotImplementedError :=
  ⟨rfl, rfl⟩

/-- C4 witness: the amended statement at the concrete data [104, 105]. -/
theorem C4_write_no_block_sync_none_witness :
    BaseWriter.isAsync WriterMethod.write_no_block = false ∧
    BaseWriter.write_no_block [104, 105] = Except.error Err.NotImplementedError :=
  C4_write_no_block_sync_none [104, 105]

/-- C5: the source declares acquire with async def (a suspension point)
and release with plain def (non-suspending); in the gate state machine,
acquire grants a ticket exactly when a permit is free and suspends the
caller otherwise, and release is total on every state, never increasing
the outstanding count, hence safely callable even after the acquiring
operation failed partway and holds no ticket. -/
theorem C5_release_sync_acquire_async (g : Gate) :
    BasePoolSemaphore.isAsync GateMethod.acquire = true ∧
    BasePoolSemaphore.isAsync GateMethod.release = false ∧
    (Gate.acquireStep g).2 = decide (g.outstanding < g.capacity) ∧
    (Gate.releaseStep g).outstanding ≤ g.outstanding := by
  refine ⟨rfl, rfl, ?_, Nat.sub_le g.outstanding 1⟩
  unfold Gate.acquireStep
  by_cases h : g.outstanding < g.capacity
  · simp [h]
  · simp [h]

/-- C6: every abstract base stub fails with NotImplementedError rather
than returning a value: the base Dispatcher send for every input, the
base reader read, the base writer write, write_no_block and close, and
the base pool-semaphore acquire and release. -/
theorem C6_base_stubs_not_implemented :
    (∀ (r : Request) (stream : Bool) (ssl : OptionalSSL) (timeout : OptionalTimeout),
        baseDispatcher.send r stream ssl timeout =
          ([], Except.error Err.NotImplementedError)) ∧
    (∀ (n : Nat) (timeout : OptionalTimeout),
        BaseReader.read n timeout = Except.error Err.NotImplementedError) ∧
    (∀ data : Bytes,
        BaseWriter.write_no_block data = Except.error Err.NotImplementedError) ∧
    (∀ (data : Bytes) (timeout : OptionalTimeout),
        BaseWriter.write data timeout = Except.error Err.NotImplementedError) ∧
    BaseWriter.close = Except.error Err.NotImplementedError ∧
    BasePoolSemaphore.acquire = Except.error Err.NotImplementedError ∧
    BasePoolSemaphore.release = Except.error Err.NotImplementedError :=
  ⟨fun _ _ _ _ => rfl, fun _ _ => rfl, fun _ => rfl, fun _ _ => rfl, rfl, rfl, rfl⟩

/-- C7: Dispatcher.prepare_request delegates exactly to the prepare hook
of the external request model on the given request and performs nothing
else: its only event is the prepare invocation on that request and its
result is exactly the prepared request the hook returns. -/
theorem C7_prepare_request_delegates (prepareHook : Request → Request) (r : Request) :
    Dispatcher.prepare_request prepareHook r = ([Event.prepare r], prepareHook r) := rfl

/-- C8: Protocol is a closed variant with exactly the two members
HTTP_11 and HTTP_2, whose string tags are HTTP/1.1 and HTTP/2, and the
two members are distinct; no operation can produce or accept any other
protocol value since every Protocol value is one of the two. -/
theorem C8_protocol_closed_variant :
    (∀ p : Protocol, p = Protocol.HTTP_11 ∨ p = Protocol.HTTP_2) ∧
    Protocol.value Protocol.HTTP_11 = "HTTP/1.1" ∧
    Protocol.value Protocol.HTTP_2 = "HTTP/2" ∧
    decide (Protocol.HTTP_11 = Protocol.HTTP_2) = false := by
  refine ⟨?_, rfl, rfl, by decide⟩
  intro p
  cases p
  · exact Or.inl rfl
  · exact Or.inr rfl

/-- C9: a call of Dispatcher.request that omits every optional argument
builds the Request with an empty byte body, no query parameters and no
headers, and invokes send with stream false, no ssl configuration and no
timeout, returning exactly what send returns. -/
theorem C9_request_defaults (d : Dispatcher) (prepareHook : Request → Request)
    (method : String) (url : String) :
    Dispatcher.requestDefaults d prepareHook method url =
      (Event.buildRequest method url [] none none ::
        Event.prepare (Request.mk method url [] none none) ::
        (d.send (prepareHook (Request.mk method url [] none none))
          false none none).1,
       (d.send (prepareHook (Request.mk method url [] none none))
          false none none).2) := rfl

/-- C10: close on the base class is a no-op that succeeds with no
effects; aexit never inspects the exception information it receives, and
on the base class it returns the falsy None, so a body exception is
never suppressed: a scoped run of the base dispatcher with a raising
body propagates exactly that exception. -/
theorem C10_base_exit_no_suppress (d : Dispatcher) (e1 e2 : Option Err) (e : Err) :
    baseDispatcher.close = ([], Except.ok ()) ∧
    Dispatcher.aexit d e1 = Dispatcher.aexit d e2 ∧
    Dispatcher.aexit baseDispatcher e1 = ([], Except.ok false) ∧
    runScoped baseDispatcher (fun _ => ([], Except.error e)) = ([], Except.error e) :=
  ⟨rfl, rfl, rfl, rfl⟩
